import Mathlib

/-!
Shallow embedding of src/main.py (iPyCommander), a Textual terminal app.

The embedding models the `CommenderApp` widget state that the menu-navigation
logic reads and writes: the current device handle (`self.device`), the status
line text, the children of the menu box (`#menu-box`, a list of mounted
`ListView`s), the children of the content box (`#content-box`), and the stack
of pushed device-selection dialogs.  External library calls
(`select_devices_by_connection_type`, `create_using_usbmux`) are supplied
through an environment record; JSON serialization via `json.dumps` is recorded
as the call it makes (payload source, sort_keys, indent, default encoder)
since the rendering itself is done by the external library.
-/

/-- A usbmux device candidate as returned by
`select_devices_by_connection_type(connection_type='USB')`; the code only
reads its `serial` field. -/
structure MuxDevice where
  serial : String
deriving DecidableEq, Repr

/-- A lockdown client handle as returned by `create_using_usbmux(serial=...)`.
The code reads `short_info` keys DeviceName, ProductType, ProductVersion,
BuildVersion, the value `get_value(key='SerialNumber')`, and passes the handle
to `InstallationProxyService` and reads `all_values` for JSON dumps. -/
structure LockdownClient where
  deviceName : String
  productType : String
  productVersion : String
  buildVersion : String
  serialNumber : String
deriving DecidableEq, Repr

/-- A `ListItem(Static(label, name=ident))` menu entry. -/
structure MItem where
  label : String
  name : String
deriving DecidableEq, Repr

/-- A mounted `ListView` inside the menu box. -/
structure MListView where
  items : List MItem
deriving DecidableEq, Repr

/-- The data source handed to `json.dumps` at each of the two call sites. -/
inductive JsonPayload where
  /-- `InstallationProxyService(lockdown=self.device).get_apps()` -/
  | apps (lockdown : Option LockdownClient)
  /-- `self.device.all_values` -/
  | allValues (device : Option LockdownClient)
deriving DecidableEq, Repr

/-- A widget mounted into the content box: either a `Static(text)` or a
`TextArea.code_editor` holding the result of a recorded `json.dumps` call. -/
inductive PaneContent where
  | staticText (text : String)
  | jsonEditor (payload : JsonPayload) (sortKeys : Bool) (indent : Nat)
      (defaultEnc : Option String) (language : String) (readOnly : Bool)
deriving DecidableEq, Repr

/-- External collaborators used by `CommenderApp.connect`:
the USB enumeration result and the handle constructor. -/
structure Env where
  /-- result of `select_devices_by_connection_type(connection_type='USB')` -/
  devices : List MuxDevice
  /-- `create_using_usbmux(serial=...)` -/
  createUsingUsbmux : String → LockdownClient

/-- The mutable `CommenderApp` state the navigation logic touches. -/
structure AppState where
  /-- `self.device` -/
  device : Option LockdownClient
  /-- `self.active_item` (assigned in `__init__`, never read) -/
  active_item : String
  /-- text of the `#status` Static -/
  statusText : String
  /-- children of the `#menu-box` Vertical, in mount order -/
  menuChildren : List MListView
  /-- children of the `#content-box` Vertical, in mount order -/
  contentChildren : List PaneContent
  /-- choices lists of pushed `DeviceSelectionDialog` screens -/
  pushedDialogs : List (List LockdownClient)
deriving DecidableEq, Repr

/-- A `ListView.Selected` event as read by `CommenderApp.on_list_view_selected`:
`event.list_view.parent.id` and `event.item.children[0].name`. -/
structure SelectedEvent where
  parentId : String
  itemName : String
deriving DecidableEq, Repr

/-- `CommenderApp.connect`. -/
def connect (env : Env) (s : AppState) : AppState :=
  match env.devices with
  | [] => { s with device := none }
  | [d] => { s with device := some (env.createUsingUsbmux d.serial) }
  | ds => { s with pushedDialogs :=
      s.pushedDialogs ++ [ds.map (fun d => env.createUsingUsbmux d.serial)] }

/-- The status text computed in `action_draw_basic` from the current handle. -/
def statusFor : Option LockdownClient → String
  | none => "Device: None"
  | some d =>
      "Device: " ++ d.deviceName ++ " (" ++ d.productType ++ ")" ++
      "\nOS version: " ++ d.productVersion ++ " (" ++ d.buildVersion ++ ")" ++
      "\nSerial number: " ++ d.serialNumber

/-- The nested list mounted for the `apps` sub-menu. -/
def appsSubList : MListView :=
  ⟨[⟨"List installed applications", "apps-list"⟩]⟩

/-- The single-item list mounted when `self.device is None`. -/
def noDeviceList : MListView :=
  ⟨[⟨"Reconnect", "reconnect"⟩]⟩

/-- The six-item top-level list mounted when a device is present. -/
def topMenuList : MListView :=
  ⟨[⟨"Restore/Downgrade", "restore"⟩,
    ⟨"Jailbreak", "jb"⟩,
    ⟨"Applications", "apps"⟩,
    ⟨"Management", "manage"⟩,
    ⟨"Utilities", "utils"⟩,
    ⟨"Information", "info"⟩]⟩

/-- `CommenderApp.action_draw_basic(menu_extras)`.  The `focus()` call on
`menu_box.children[1]` changes only keyboard focus and is not part of the
tracked state. -/
def action_draw_basic (menuExtras : String) (s : AppState) : AppState :=
  -- Draw top box
  let s := { s with statusText := statusFor s.device }
  -- Draw bottom menu box
  if menuExtras.length > 0 then
    if menuExtras = "apps" then
      -- case "apps": mount the nested list, then drop the extra child if a
      -- nested list was already present (children[2].remove())
      let children := s.menuChildren ++ [appsSubList]
      let children := if children.length > 2 then children.eraseIdx 2 else children
      { s with menuChildren := children }
    else
      -- case _: has_matched is false; drop any nested list (children[1].remove())
      let children :=
        if s.menuChildren.length > 1 then s.menuChildren.eraseIdx 1
        else s.menuChildren
      { s with menuChildren := children }
  else
    -- menu_box.remove_children() followed by mounting the top-level list
    match s.device with
    | none => { s with menuChildren := [noDeviceList] }
    | some _ => { s with menuChildren := [topMenuList] }

/-- The content mounted for `apps-list`:
`TextArea.code_editor(text=json.dumps(InstallationProxyService(lockdown=self.device).get_apps(), sort_keys=True, indent=4, default=default_json_encoder), language="json", read_only=True)`. -/
def appsListView (dev : Option LockdownClient) : PaneContent :=
  .jsonEditor (.apps dev) true 4 (some "default_json_encoder") "json" true

/-- The content mounted for `info`:
`TextArea.code_editor(text=json.dumps(self.device.all_values, sort_keys=True, indent=4, default=default_json_encoder), language="json", read_only=True)`. -/
def infoView (dev : Option LockdownClient) : PaneContent :=
  .jsonEditor (.allValues dev) true 4 (some "default_json_encoder") "json" true

/-- `CommenderApp.on_list_view_selected(event)`.  The Python `match` on
`item_name` is a first-match dispatch, embedded as the same chain of string
comparisons; each branch records the one widget it mounts into the cleared
content box, and `menu_extras` is `item_name` except in the `apps-list`
branch, which resets it to `"apps"`. -/
def on_list_view_selected (env : Env) (ev : SelectedEvent) (s : AppState) : AppState :=
  if ev.parentId ≠ "menu-box" then s
  else
    -- content_box.remove_children()
    let s1 := { s with contentChildren := [] }
    let item := ev.itemName
    if item = "apps" then
      action_draw_basic "apps"
        { s1 with contentChildren := [.staticText "Please select an option."] }
    else if item = "apps-list" then
      action_draw_basic "apps"
        { s1 with contentChildren := [appsListView s1.device] }
    else if item = "info" then
      action_draw_basic "info"
        { s1 with contentChildren := [infoView s1.device] }
    else if item = "reconnect" then
      action_draw_basic "reconnect" (connect env s1)
    else
      action_draw_basic item
        { s1 with contentChildren := [.staticText "Not supported yet :)"] }

/-- The state after `compose`: the content box starts with
`Static("Please select an option.")`, the menu box empty. -/
def composeState : AppState :=
  { device := none
    active_item := ""
    statusText := ""
    menuChildren := []
    contentChildren := [.staticText "Please select an option."]
    pushedDialogs := [] }

/-- `CommenderApp.on_mount`: `self.connect()` then `self.action_draw_basic()`. -/
def on_mount (env : Env) : AppState :=
  action_draw_basic "" (connect env composeState)

/-! ### Sample data for concrete witnesses and counterexamples -/

/-- A concrete lockdown handle used in witnesses. -/
def dev1 : LockdownClient :=
  { deviceName := "iPhone", productType := "iPhone10,1",
    productVersion := "16.0", buildVersion := "20A1", serialNumber := "S1" }

/-- An environment whose USB enumeration yields exactly one candidate. -/
def envOne : Env :=
  { devices := [⟨"S1"⟩],
    createUsingUsbmux := fun sr => { dev1 with serialNumber := sr } }

/-- An environment whose USB enumeration yields no candidates. -/
def envZero : Env :=
  { devices := [],
    createUsingUsbmux := fun sr => { dev1 with serialNumber := sr } }

/-- The state right after mounting with no device attached: the menu shows the
single `reconnect` item. -/
def noDevState : AppState := on_mount envZero

/-- The state right after mounting with one device attached: the menu shows the
six-item top-level list. -/
def topState : AppState := on_mount envOne

/-- The state after selecting `apps` from the top menu: the nested `apps`
sub-list is mounted under the top-level list. -/
def subMenuState : AppState :=
  on_list_view_selected envOne ⟨"menu-box", "apps"⟩ topState

/-- The serialization convention both `json.dumps` call sites use: keys
sorted, indent 4, and the named `default_json_encoder` fallback.  `Static`
texts are not JSON documents and satisfy the condition vacuously. -/
def dumpsOk : PaneContent → Bool
  | .staticText _ => true
  | .jsonEditor _ sk ind fb _ _ =>
      sk && (ind == 4) && (fb == some "default_json_encoder")

/-! ### Helper lemmas about the embedded operations -/

theorem connect_menuChildren (env : Env) (s : AppState) :
    (connect env s).menuChildren = s.menuChildren := by
  unfold connect; split <;> rfl

theorem connect_contentChildren (env : Env) (s : AppState) :
    (connect env s).contentChildren = s.contentChildren := by
  unfold connect; split <;> rfl

theorem draw_device (e : String) (s : AppState) :
    (action_draw_basic e s).device = s.device := by
  simp only [action_draw_basic]
  split <;> split <;> rfl

theorem draw_contentChildren (e : String) (s : AppState) :
    (action_draw_basic e s).contentChildren = s.contentChildren := by
  simp only [action_draw_basic]
  split <;> split <;> rfl

theorem draw_statusText (e : String) (s : AppState) :
    (action_draw_basic e s).statusText = statusFor s.device := by
  simp only [action_draw_basic]
  split <;> split <;> rfl

theorem draw_menu_of_apps (s : AppState) :
    (action_draw_basic "apps" s).menuChildren =
      if (s.menuChildren ++ [appsSubList]).length > 2
      then (s.menuChildren ++ [appsSubList]).eraseIdx 2
      else s.menuChildren ++ [appsSubList] := rfl

theorem draw_menu_of_other (e : String) (s : AppState)
    (hlen : e.length > 0) (hne : e ≠ "apps") :
    (action_draw_basic e s).menuChildren =
      if s.menuChildren.length > 1 then s.menuChildren.eraseIdx 1
      else s.menuChildren := by
  unfold action_draw_basic
  rw [if_pos hlen, if_neg hne]

theorem draw_menu_of_empty (s : AppState) :
    (action_draw_basic "" s).menuChildren =
      match s.device with
      | none => [noDeviceList]
      | some _ => [topMenuList] := by
  unfold action_draw_basic
  cases s.device <;> rfl

theorem draw_menu_len (e : String) (s : AppState)
    (h : s.menuChildren.length ≤ 2) :
    (action_draw_basic e s).menuChildren.length ≤ 2 := by
  simp only [action_draw_basic]
  split
  · split
    · dsimp only
      split
      · rename_i hgt
        have hlt : 2 < (s.menuChildren ++ [appsSubList]).length := hgt
        have := List.length_eraseIdx_add_one (l := s.menuChildren ++ [appsSubList])
          (i := 2) hlt
        simp only [List.length_append, List.length_singleton] at *
        omega
      · rename_i hng
        simp only [List.length_append, List.length_singleton] at *
        omega
    · dsimp only
      split
      · rename_i hgt
        have hlt : 1 < s.menuChildren.length := hgt
        have := List.length_eraseIdx_add_one (l := s.menuChildren) (i := 1) hlt
        omega
      · exact h
  · split <;> simp [noDeviceList, topMenuList]

theorem olvs_foreign (env : Env) (ev : SelectedEvent) (s : AppState)
    (h : ev.parentId ≠ "menu-box") :
    on_list_view_selected env ev s = s := by
  unfold on_list_view_selected
  rw [if_pos h]

theorem olvs_apps (env : Env) (s : AppState) :
    on_list_view_selected env ⟨"menu-box", "apps"⟩ s =
      action_draw_basic "apps"
        { s with contentChildren := [.staticText "Please select an option."] } := rfl

theorem olvs_apps_list (env : Env) (s : AppState) :
    on_list_view_selected env ⟨"menu-box", "apps-list"⟩ s =
      action_draw_basic "apps"
        { s with contentChildren := [appsListView s.device] } := rfl

theorem olvs_info (env : Env) (s : AppState) :
    on_list_view_selected env ⟨"menu-box", "info"⟩ s =
      action_draw_basic "info"
        { s with contentChildren := [infoView s.device] } := rfl

theorem olvs_reconnect (env : Env) (s : AppState) :
    on_list_view_selected env ⟨"menu-box", "reconnect"⟩ s =
      action_draw_basic "reconnect"
        (connect env { s with contentChildren := [] }) := rfl

theorem olvs_default (env : Env) (s : AppState) (nm : String)
    (h1 : nm ≠ "apps") (h2 : nm ≠ "apps-list") (h3 : nm ≠ "info")
    (h4 : nm ≠ "reconnect") :
    on_list_view_selected env ⟨"menu-box", nm⟩ s =
      action_draw_basic nm
        { s with contentChildren := [.staticText "Not supported yet :)"] } := by
  unfold on_list_view_selected
  rw [if_neg (by simp), if_neg h1, if_neg h2, if_neg h3, if_neg h4]

theorem string_len_zero (nm : String) (h : ¬ nm.length > 0) : nm = "" := by
  cases nm with
  | mk l =>
    cases l with
    | nil => rfl
    | cons a l => simp [String.length] at h

/-! ### Claim theorems -/

/-- C1: the claim says that selecting `reconnect` invokes `connect()` and then
re-renders the menu panel to the `TopMenu` six-item list when a device handle
was obtained (or to the `NoDevice` list otherwise).  The code instead passes
`menu_extras = "reconnect"` to `action_draw_basic`, which matches no case and
returns after only removing a nested list, so the top-level list is never
rebuilt: from the no-device state with one device available, the handler
stores the new handle but leaves the menu box holding only the single
`reconnect` item instead of the six-item top menu. -/
theorem reconnect_menu_not_redrawn :
    (on_list_view_selected envOne ⟨"menu-box", "reconnect"⟩ noDevState).device
        = some (envOne.createUsingUsbmux "S1") ∧
    (on_list_view_selected envOne ⟨"menu-box", "reconnect"⟩ noDevState).menuChildren
        = [noDeviceList] ∧
    noDeviceList ≠ topMenuList := by
  refine ⟨rfl, rfl, ?_⟩
  decide

/-- C2: `connect()` sets the device handle to `none` when USB enumeration
yields zero candidates, and to a handle built via `create_using_usbmux` from
the candidate's serial when it yields exactly one. -/
theorem connect_device_resolution (env : Env) (s : AppState) :
    (env.devices = [] → (connect env s).device = none) ∧
    (∀ d, env.devices = [d] →
      (connect env s).device = some (env.createUsingUsbmux d.serial)) := by
  constructor
  · intro h
    unfold connect
    rw [h]
  · intro d h
    unfold connect
    rw [h]

/-- Witness for C2 at concrete environments with zero and one candidate. -/
theorem connect_device_resolution_witness :
    (connect envZero noDevState).device = none ∧
    (connect envOne noDevState).device = some (envOne.createUsingUsbmux "S1") :=
  ⟨(connect_device_resolution envZero noDevState).1 rfl,
   (connect_device_resolution envOne noDevState).2 ⟨"S1"⟩ rfl⟩

/-- C10: a selection event whose list view's parent is not the menu box makes
the handler return early: the whole application state is unchanged (content
pane untouched, menu panels untouched). -/
theorem foreign_list_early_return (env : Env) (ev : SelectedEvent) (s : AppState)
    (h : ev.parentId ≠ "menu-box") :
    on_list_view_selected env ev s = s := by
  unfold on_list_view_selected
  rw [if_pos h]

/-- Witness for C10: a selection from the device-selection dialog's list
(whose parent is not the menu box) leaves the state unchanged. -/
theorem foreign_list_early_return_witness :
    on_list_view_selected envOne ⟨"", "reconnect"⟩ subMenuState = subMenuState :=
  foreign_list_early_return envOne ⟨"", "reconnect"⟩ subMenuState (by decide)

/-- C3: after any selection event from a state satisfying the two-panel bound,
the menu box still holds at most two children (the top-level list plus at most
one nested list); selecting `apps` from the top menu yields exactly the
top-level list plus the one-item nested list containing `apps-list`, and
selecting `apps` again is idempotent. -/
theorem menu_nesting_invariant (env : Env) (s : AppState)
    (h : s.menuChildren.length ≤ 2) :
    (∀ ev : SelectedEvent,
      (on_list_view_selected env ev s).menuChildren.length ≤ 2) ∧
    (s.menuChildren = [topMenuList] →
      (on_list_view_selected env ⟨"menu-box", "apps"⟩ s).menuChildren
          = [topMenuList, appsSubList] ∧
      (on_list_view_selected env ⟨"menu-box", "apps"⟩
          (on_list_view_selected env ⟨"menu-box", "apps"⟩ s)).menuChildren
          = [topMenuList, appsSubList]) ∧
    appsSubList.items = [⟨"List installed applications", "apps-list"⟩] := by
  refine ⟨?_, ?_, rfl⟩
  · intro ev
    by_cases hp : ev.parentId ≠ "menu-box"
    · unfold on_list_view_selected
      rw [if_pos hp]
      exact h
    · unfold on_list_view_selected
      rw [if_neg hp]
      dsimp only
      split
      · exact draw_menu_len _ _ h
      · split
        · exact draw_menu_len _ _ h
        · split
          · exact draw_menu_len _ _ h
          · split
            · exact draw_menu_len _ _ (by rw [connect_menuChildren]; exact h)
            · exact draw_menu_len _ _ h
  · intro hm
    have first :
        (on_list_view_selected env ⟨"menu-box", "apps"⟩ s).menuChildren
          = [topMenuList, appsSubList] := by
      rw [olvs_apps, draw_menu_of_apps]
      simp [hm]
    refine ⟨first, ?_⟩
    rw [olvs_apps, draw_menu_of_apps]
    simp [first, List.eraseIdx]

/-- Witness for C3: from the freshly mounted connected state, selecting `apps`
mounts exactly the nested `apps-list` list, and doing it twice is idempotent. -/
theorem menu_nesting_invariant_witness :
    (on_list_view_selected envOne ⟨"menu-box", "apps"⟩ topState).menuChildren
        = [topMenuList, appsSubList] ∧
    (on_list_view_selected envOne ⟨"menu-box", "apps"⟩
        (on_list_view_selected envOne ⟨"menu-box", "apps"⟩ topState)).menuChildren
        = [topMenuList, appsSubList] :=
  (menu_nesting_invariant envOne topState (by decide)).2.1 (by decide)

/-- C4 counterexample: the claim says selecting `info` never mounts nor
removes a nested list; but from the `SubMenu(apps)` state, which holds the
top-level list plus the nested list, selecting `info` leaves only the
top-level list: the nested list was removed. -/
theorem info_removes_nested_cex :
    subMenuState.menuChildren = [topMenuList, appsSubList] ∧
    (on_list_view_selected envOne ⟨"menu-box", "info"⟩ subMenuState).menuChildren
        = [topMenuList] := by
  exact ⟨rfl, rfl⟩

/-- C4 amended: selecting `info` never mounts a nested list and keeps the
top-level list in place (first menu child unchanged), but it removes any
previously mounted nested list; the content pane is replaced with the
all-device-attribute-values JSON view. -/
theorem info_selection_amended (env : Env) (s : AppState)
    (h : s.menuChildren.length ≤ 2) :
    (on_list_view_selected env ⟨"menu-box", "info"⟩ s).menuChildren
        = s.menuChildren.take 1 ∧
    (on_list_view_selected env ⟨"menu-box", "info"⟩ s).contentChildren
        = [infoView s.device] := by
  constructor
  · rw [olvs_info, draw_menu_of_other _ _ (by decide) (by decide)]
    rcases hm : s.menuChildren with _ | ⟨a, _ | ⟨b, _ | ⟨c, l⟩⟩⟩
    · simp
    · simp
    · simp [List.eraseIdx]
    · rw [hm] at h
      simp at h
  · rw [olvs_info, draw_contentChildren]

/-- Witness for C4's amended claim at the `SubMenu(apps)` state. -/
theorem info_selection_amended_witness :
    (on_list_view_selected envOne ⟨"menu-box", "info"⟩ subMenuState).menuChildren
        = subMenuState.menuChildren.take 1 ∧
    (on_list_view_selected envOne ⟨"menu-box", "info"⟩ subMenuState).contentChildren
        = [infoView subMenuState.device] :=
  info_selection_amended envOne subMenuState (by decide)

/-- C6: selecting `apps-list` while the menu box holds the top-level list and
one nested list keeps both menu panels exactly as they are (which top-level
item is expanded does not change) and replaces the content pane with the
installed-application JSON view retrieved through the installation proxy with
the current handle. -/
theorem apps_list_frame (env : Env) (s : AppState) (x y : MListView)
    (h : s.menuChildren = [x, y]) :
    (on_list_view_selected env ⟨"menu-box", "apps-list"⟩ s).menuChildren
        = [x, y] ∧
    (on_list_view_selected env ⟨"menu-box", "apps-list"⟩ s).contentChildren
        = [appsListView s.device] := by
  constructor
  · rw [olvs_apps_list, draw_menu_of_apps]
    simp [h, List.eraseIdx]
  · rw [olvs_apps_list, draw_contentChildren]

/-- Witness for C6 at the `SubMenu(apps)` state. -/
theorem apps_list_frame_witness :
    (on_list_view_selected envOne ⟨"menu-box", "apps-list"⟩ subMenuState).menuChildren
        = [topMenuList, appsSubList] ∧
    (on_list_view_selected envOne ⟨"menu-box", "apps-list"⟩ subMenuState).contentChildren
        = [appsListView subMenuState.device] :=
  apps_list_frame envOne subMenuState topMenuList appsSubList (by decide)

/-- C5 counterexample: the claim says the content pane is never left empty
after a selection event, explicitly including `reconnect`; but selecting
`reconnect` clears the content box and its branch mounts nothing, so the pane
is empty afterwards. -/
theorem reconnect_empty_pane_cex :
    (on_list_view_selected envZero ⟨"menu-box", "reconnect"⟩ noDevState).contentChildren
      = [] := rfl

/-- C5 amended: after every selection event handled by the menu box, the
content pane has been replaced wholesale; for every identifier other than
`reconnect` it holds exactly one widget, which is the placeholder prompt, the
unsupported-stub message, or a serialized JSON view; selecting `reconnect`
leaves the pane empty. -/
theorem content_pane_kinds (env : Env) (ev : SelectedEvent) (s : AppState)
    (hp : ev.parentId = "menu-box") :
    (ev.itemName = "reconnect" →
      (on_list_view_selected env ev s).contentChildren = []) ∧
    (ev.itemName ≠ "reconnect" →
      (on_list_view_selected env ev s).contentChildren
          = [PaneContent.staticText "Please select an option."] ∨
      (on_list_view_selected env ev s).contentChildren
          = [PaneContent.staticText "Not supported yet :)"] ∨
      (on_list_view_selected env ev s).contentChildren = [appsListView s.device] ∨
      (on_list_view_selected env ev s).contentChildren = [infoView s.device]) := by
  obtain ⟨p, item⟩ := ev
  simp only at hp
  subst hp
  constructor
  · intro hr
    simp only at hr
    subst hr
    rw [olvs_reconnect, draw_contentChildren, connect_contentChildren]
  · intro hr
    simp only at hr
    by_cases h1 : item = "apps"
    · subst h1
      left
      rw [olvs_apps, draw_contentChildren]
    · by_cases h2 : item = "apps-list"
      · subst h2
        right; right; left
        rw [olvs_apps_list, draw_contentChildren]
      · by_cases h3 : item = "info"
        · subst h3
          right; right; right
          rw [olvs_info, draw_contentChildren]
        · right; left
          rw [olvs_default env s item h1 h2 h3 hr, draw_contentChildren]

/-- Witness for C5's amended claim: selecting `reconnect` empties the pane,
and selecting `manage` yields the unsupported stub. -/
theorem content_pane_kinds_witness :
    ((on_list_view_selected envOne ⟨"menu-box", "reconnect"⟩ noDevState).contentChildren
        = []) ∧
    ((on_list_view_selected envOne ⟨"menu-box", "manage"⟩ topState).contentChildren
          = [PaneContent.staticText "Please select an option."] ∨
      (on_list_view_selected envOne ⟨"menu-box", "manage"⟩ topState).contentChildren
          = [PaneContent.staticText "Not supported yet :)"] ∨
      (on_list_view_selected envOne ⟨"menu-box", "manage"⟩ topState).contentChildren
          = [appsListView topState.device] ∨
      (on_list_view_selected envOne ⟨"menu-box", "manage"⟩ topState).contentChildren
          = [infoView topState.device]) :=
  ⟨(content_pane_kinds envOne ⟨"menu-box", "reconnect"⟩ noDevState rfl).1 rfl,
   (content_pane_kinds envOne ⟨"menu-box", "manage"⟩ topState rfl).2 (by decide)⟩

/-- C7: rendering computes the status line from the current device handle on
every call: with a null handle it is exactly the fixed placeholder
`Device: None`; with a connected handle it is the three lines built from the
handle's attribute fields; and after any menu-box selection event (in
particular a `reconnect` that replaces the handle) the displayed status equals
the status computed from the handle held after the event, so no stale values
survive. -/
theorem status_line_fresh (s : AppState) (e : String) :
    ((action_draw_basic e s).statusText = statusFor s.device) ∧
    (statusFor none = "Device: None") ∧
    (∀ d : LockdownClient, statusFor (some d) =
      "Device: " ++ d.deviceName ++ " (" ++ d.productType ++ ")" ++
      "\nOS version: " ++ d.productVersion ++ " (" ++ d.buildVersion ++ ")" ++
      "\nSerial number: " ++ d.serialNumber) ∧
    (∀ (env : Env) (ev : SelectedEvent), ev.parentId = "menu-box" →
      (on_list_view_selected env ev s).statusText
        = statusFor (on_list_view_selected env ev s).device) := by
  refine ⟨draw_statusText e s, rfl, fun d => rfl, ?_⟩
  intro env ev hp
  obtain ⟨p, item⟩ := ev
  simp only at hp
  subst hp
  unfold on_list_view_selected
  rw [if_neg (by simp)]
  dsimp only
  split
  · rw [draw_statusText, draw_device]
  · split
    · rw [draw_statusText, draw_device]
    · split
      · rw [draw_statusText, draw_device]
      · split
        · rw [draw_statusText, draw_device]
        · rw [draw_statusText, draw_device]

/-- Witness for C7: after reconnecting from the no-device state with one
device available, the status line equals the status computed from the newly
stored handle. -/
theorem status_line_fresh_witness :
    (on_list_view_selected envOne ⟨"menu-box", "reconnect"⟩ noDevState).statusText
      = statusFor (on_list_view_selected envOne ⟨"menu-box", "reconnect"⟩ noDevState).device :=
  (status_line_fresh noDevState "").2.2.2 envOne ⟨"menu-box", "reconnect"⟩ rfl

/-- C8: every JSON document mounted into the content pane carries the one
serialization convention of both `json.dumps` call sites: keys sorted, indent
4, and the named fallback `default_json_encoder` that stringifies any
otherwise non-serializable value; the property is preserved by every selection
event and holds in the freshly mounted state. -/
theorem json_dump_config (env : Env) (ev : SelectedEvent) (s : AppState)
    (h : ∀ c ∈ s.contentChildren, dumpsOk c = true) :
    (∀ c ∈ (on_list_view_selected env ev s).contentChildren, dumpsOk c = true) ∧
    (∀ c ∈ (on_mount env).contentChildren, dumpsOk c = true) := by
  constructor
  · by_cases hp : ev.parentId ≠ "menu-box"
    · rw [olvs_foreign env ev s hp]
      exact h
    · obtain ⟨p, item⟩ := ev
      simp only [ne_eq, not_not] at hp
      subst hp
      by_cases h1 : item = "apps"
      · subst h1
        rw [olvs_apps, draw_contentChildren]
        simp [dumpsOk]
      · by_cases h2 : item = "apps-list"
        · subst h2
          rw [olvs_apps_list, draw_contentChildren]
          simp [dumpsOk, appsListView]
        · by_cases h3 : item = "info"
          · subst h3
            rw [olvs_info, draw_contentChildren]
            simp [dumpsOk, infoView]
          · by_cases h4 : item = "reconnect"
            · subst h4
              rw [olvs_reconnect, draw_contentChildren, connect_contentChildren]
              simp
            · rw [olvs_default env s item h1 h2 h3 h4, draw_contentChildren]
              simp [dumpsOk]
  · unfold on_mount
    rw [draw_contentChildren, connect_contentChildren]
    simp [composeState, dumpsOk]

/-- Witness for C8: from the connected state, selecting `info` leaves only
well-configured JSON content, and the mounted state is well configured. -/
theorem json_dump_config_witness :
    (∀ c ∈ (on_list_view_selected envOne ⟨"menu-box", "info"⟩ topState).contentChildren,
      dumpsOk c = true) ∧
    (∀ c ∈ (on_mount envOne).contentChildren, dumpsOk c = true) :=
  json_dump_config envOne ⟨"menu-box", "info"⟩ topState (by decide)

/-- C9: selecting any identifier outside the four handled cases (`apps`,
`apps-list`, `info`, `reconnect`) — in particular `restore`, `jb`, `manage`,
`utils` — from the connected top-level menu is handled by the default branch
without error: the state stays in `TopMenu`, the device handle is untouched,
and the content pane shows the fixed unsupported-stub message. -/
theorem unsupported_default_branch (env : Env) (s : AppState)
    (d : LockdownClient) (nm : String)
    (h1 : nm ≠ "apps") (h2 : nm ≠ "apps-list") (h3 : nm ≠ "info")
    (h4 : nm ≠ "reconnect")
    (hm : s.menuChildren = [topMenuList]) (hd : s.device = some d) :
    (on_list_view_selected env ⟨"menu-box", nm⟩ s).menuChildren = [topMenuList] ∧
    (on_list_view_selected env ⟨"menu-box", nm⟩ s).contentChildren
        = [PaneContent.staticText "Not supported yet :)"] ∧
    (on_list_view_selected env ⟨"menu-box", nm⟩ s).device = s.device := by
  have e1 := olvs_default env s nm h1 h2 h3 h4
  refine ⟨?_, ?_, ?_⟩
  · rw [e1]
    by_cases hl : nm.length > 0
    · rw [draw_menu_of_other _ _ hl h1]
      simp [hm]
    · rw [string_len_zero nm hl, draw_menu_of_empty]
      simp only [hd]
  · rw [e1, draw_contentChildren]
  · rw [e1, draw_device]

/-- Witness for C9: selecting `manage` from the connected top-level menu. -/
theorem unsupported_default_branch_witness :
    (on_list_view_selected envOne ⟨"menu-box", "manage"⟩ topState).menuChildren
        = [topMenuList] ∧
    (on_list_view_selected envOne ⟨"menu-box", "manage"⟩ topState).contentChildren
        = [PaneContent.staticText "Not supported yet :)"] ∧
    (on_list_view_selected envOne ⟨"menu-box", "manage"⟩ topState).device
        = topState.device :=
  unsupported_default_branch envOne topState (envOne.createUsingUsbmux "S1") "manage"
    (by decide) (by decide) (by decide) (by decide) (by decide) (by decide)
